import Mathlib

/-!
Shallow embedding of `src/verify_toc.py` (an end-to-end UI smoke test driving a
headless browser through Playwright).

The script is a linear sequence of calls into an external browser driver.  We
model the external world as an `Env`: for each fallible external call it says
whether the call succeeds or raises (and with which message), and it gives the
boolean answer of the one visibility query.  Running the script against an
`Env` yields the ordered list of external actions performed (`List Event`) and
whether an unhandled fault propagated out (`Bool`).

Correspondence with the source:
- `retryLoop` embeds lines 11-17: `for i in range(max_retries): try:
  page.goto("http://localhost:5173", timeout=3000); break; except:
  time.sleep(1)`.  The bare `except:` catches every exception, so the loop's
  behaviour depends only on whether each attempt raised, never on what it
  raised, and the loop itself can never propagate a fault (its result type is
  a plain event list, with no fault flag).
- `afterLoop` embeds lines 19-42 (screenshots, the two button clicks, the
  visibility check with its two prints, and `browser.close()`); each fallible
  call short-circuits the rest of the body when the environment makes it raise.
- `verify_toc` wraps the body in the `with sync_playwright() as p:` block of
  line 5: Python's `with` statement runs the context manager's exit handler on
  every path out of the block, normal or faulting, and Playwright's exit
  handler stops the driver, which releases every browser session launched
  through it.  This is modelled by the trailing `Event.playwrightStop`.
-/

/-- URL of line 14 of the source. -/
def appUrl : String := "http://localhost:5173"

/-- Screenshot path at line 20 of the source. -/
def initialSplitPath : String := "/home/jules/verification/initial_split.png"

/-- Screenshot path at line 35 of the source. -/
def previewWithTocPath : String := "/home/jules/verification/preview_with_toc.png"

/-- Screenshot path at line 40 of the source. -/
def backToSplitPath : String := "/home/jules/verification/back_to_split.png"

/-- Accessible role used by both `get_by_role` calls (lines 23 and 38). -/
def buttonRole : String := "button"

/-- Label of the Preview button (line 23). -/
def xemTruoc : String := "Xem trước"

/-- Label of the Split button (line 38). -/
def songSong : String := "Song song"

/-- Text of the TOC header element (line 28). -/
def mucLuc : String := "Mục lục"

/-- Line printed at line 30 of the source. -/
def tocVisibleLine : String := "TOC is visible in Preview mode."

/-- Line printed at line 32 of the source. -/
def tocNotVisibleLine : String := "TOC is NOT visible in Preview mode."

/-- The `max_retries = 10` constant of line 11. -/
def max_retries : Nat := 10

/-- One observable external action of the script. -/
inductive Event where
  /-- `p.chromium.launch(headless=True)` (line 6). -/
  | launch (headless : Bool)
  /-- `browser.new_context(viewport=...)` (line 7). -/
  | newContext (width height : Nat)
  /-- `context.new_page()` (line 8). -/
  | newPage
  /-- One `page.goto(url, timeout=timeoutMs)` call (line 14). -/
  | gotoCall (url : String) (timeoutMs : Nat)
  /-- `time.sleep(seconds)` (lines 17, 24, 39). -/
  | sleep (seconds : Nat)
  /-- `page.screenshot(path=path)` (lines 20, 35, 40). -/
  | screenshot (path : String)
  /-- `page.get_by_role(role, name=label).click()` (lines 23, 38). -/
  | click (role : String) (label : String)
  /-- `page.get_by_text(text)` followed by `.is_visible()` (lines 28-29). -/
  | queryVisible (text : String)
  /-- A line written to standard output (lines 30, 32). -/
  | printLine (line : String)
  /-- `browser.close()` (line 42). -/
  | browserClose
  /-- The `with sync_playwright()` exit handler stopping the driver (line 5). -/
  | playwrightStop
deriving DecidableEq

/-- External-world behaviour for one run: what each fallible driver call does
(`none` = the call returns normally, `some msg` = the call raises an exception
carrying `msg`), and the boolean the visibility query returns.  The visibility
query itself (`Locator.is_visible`) returns a boolean and does not raise. -/
structure Env where
  /-- Outcome of the i-th `page.goto` attempt. -/
  gotoErr : Nat → Option String
  /-- Outcome of clicking the button with the given label. -/
  clickErr : String → Option String
  /-- Outcome of capturing a screenshot at the given path. -/
  screenshotErr : String → Option String
  /-- Result of `page.get_by_text("Mục lục").is_visible()`. -/
  tocVisible : Bool

/-- Lines 12-17 of the source: the connect-with-retry loop.  `i` is the current
attempt index, the second argument the number of remaining iterations.  A
successful `goto` breaks out at once; a raising `goto` is swallowed by the bare
`except:` and followed by `time.sleep(1)`, including after the last attempt.
The loop produces only events and can never propagate a fault. -/
def retryLoop (env : Env) (i : Nat) : Nat → List Event
  | 0 => []
  | n + 1 =>
    Event.gotoCall appUrl 3000 ::
      match env.gotoErr i with
      | none => []
      | some _ => Event.sleep 1 :: retryLoop env (i + 1) n

/-- Trace of `k` consecutive failed navigation attempts: each one is the
`goto` call followed by the 1-second sleep of the `except:` branch. -/
def failedAttempts : Nat → List Event
  | 0 => []
  | k + 1 => Event.gotoCall appUrl 3000 :: Event.sleep 1 :: failedAttempts k

/-- Index of the first successful navigation attempt among the next `n`
attempts starting at attempt `i`, if any: mirrors which iteration of the
loop of lines 12-17 reaches the `break`. -/
def firstSuccessAux (env : Env) (i : Nat) : Nat → Option Nat
  | 0 => none
  | n + 1 =>
    match env.gotoErr i with
    | none => some i
    | some _ => firstSuccessAux env (i + 1) n

/-- Closed-form description of the retry loop's trace: if some attempt
`k < max_retries` is the first to succeed, the loop performs `k` failed
attempts (each a `goto` followed by the 1-second pause) and then the final,
successful `goto`, and stops at once — no further attempts or pauses; if no
attempt succeeds, it performs all `max_retries` failed attempts. -/
def loopTraceDescription (env : Env) : List Event :=
  match firstSuccessAux env 0 max_retries with
  | some k => failedAttempts k ++ [Event.gotoCall appUrl 3000]
  | none => failedAttempts max_retries

/-- Events of lines 6-8: browser launch, context with viewport 1280×800, page. -/
def setupTrace : List Event :=
  [Event.launch true, Event.newContext 1280 800, Event.newPage]

/-- Lines 19-42 of the source, the straight-line body after the retry loop:
initial screenshot, "Xem trước" click, 1 s sleep, visibility check and its
print, preview screenshot, "Song song" click, 1 s sleep, final screenshot,
`browser.close()`.  Each fallible call that the environment makes raise stops
the body there with a propagating fault (`true`); the raising call's event is
still recorded, the calls after it never run. -/
def afterLoop (env : Env) : List Event × Bool :=
  match env.screenshotErr initialSplitPath with
  | some _ => ([Event.screenshot initialSplitPath], true)
  | none =>
    match env.clickErr xemTruoc with
    | some _ => ([Event.screenshot initialSplitPath,
                  Event.click buttonRole xemTruoc], true)
    | none =>
      let answered := [Event.screenshot initialSplitPath,
                       Event.click buttonRole xemTruoc,
                       Event.sleep 1,
                       Event.queryVisible mucLuc,
                       Event.printLine
                         (if env.tocVisible then tocVisibleLine
                          else tocNotVisibleLine),
                       Event.screenshot previewWithTocPath]
      match env.screenshotErr previewWithTocPath with
      | some _ => (answered, true)
      | none =>
        match env.clickErr songSong with
        | some _ => (answered ++ [Event.click buttonRole songSong], true)
        | none =>
          match env.screenshotErr backToSplitPath with
          | some _ => (answered ++ [Event.click buttonRole songSong,
                                    Event.sleep 1,
                                    Event.screenshot backToSplitPath], true)
          | none => (answered ++ [Event.click buttonRole songSong,
                                  Event.sleep 1,
                                  Event.screenshot backToSplitPath,
                                  Event.browserClose], false)

/-- Body of the `with sync_playwright()` block (lines 6-42): setup, retry
loop, then the straight-line rest.  The retry loop contributes events but no
fault; the fault flag comes only from the body after the loop. -/
def verifyBody (env : Env) : List Event × Bool :=
  ((setupTrace ++ retryLoop env 0 max_retries) ++ (afterLoop env).1,
   (afterLoop env).2)

/-- The whole run of `verify_toc()` (lines 4-42).  On every path out of the
`with` block — normal completion or propagating fault — Python runs the
context manager's exit handler, which stops the Playwright driver and thereby
releases the browser session (`Event.playwrightStop`). -/
def verify_toc (env : Env) : List Event × Bool :=
  ((verifyBody env).1 ++ [Event.playwrightStop], (verifyBody env).2)

/-- Exit status of the process: 0 on normal completion, 1 when an unhandled
exception propagates out of `verify_toc()`. -/
def exitCode (env : Env) : Nat :=
  if (verify_toc env).2 then 1 else 0

/-- Does this event stand for a `page.goto` call? -/
def isGotoEvent : Event → Bool
  | Event.gotoCall _ _ => true
  | _ => false

/-- Does this event stand for a `time.sleep` call? -/
def isSleepEvent : Event → Bool
  | Event.sleep _ => true
  | _ => false

/-- Does this event stand for a line printed on standard output? -/
def isPrintEvent : Event → Bool
  | Event.printLine _ => true
  | _ => false

/-- Number of `page.goto` calls in a trace. -/
def gotoCount (tr : List Event) : Nat := tr.countP isGotoEvent

/-- Number of `time.sleep` calls in a trace. -/
def sleepCount (tr : List Event) : Nat := tr.countP isSleepEvent

/-- The lines printed on standard output, in order. -/
def printedLines : List Event → List String
  | [] => []
  | Event.printLine s :: es => s :: printedLines es
  | _ :: es => printedLines es

/-- The trace with the printed lines removed: every external action other
than standard-output text. -/
def nonPrintEvents (tr : List Event) : List Event :=
  tr.filter (fun e => !(isPrintEvent e))

/-- The paths of the screenshot calls in a trace, in order. -/
def screenshotPaths : List Event → List String
  | [] => []
  | Event.screenshot p :: es => p :: screenshotPaths es
  | _ :: es => screenshotPaths es

/-- Is every event of the retry loop one of its two possible actions: the
fixed `goto` call (fixed URL, 3000 ms timeout) or the 1-second sleep? -/
def attemptOrPause (e : Event) : Bool :=
  decide (e = Event.gotoCall appUrl 3000) || decide (e = Event.sleep 1)

/-- The browser session is released in this trace: either `browser.close()`
ran, or the Playwright driver was stopped (which closes its browsers). -/
def sessionReleased (tr : List Event) : Prop :=
  Event.browserClose ∈ tr ∨ Event.playwrightStop ∈ tr

/-- Maximal wall-clock delay an event can contribute, in milliseconds: the
network timeout of a `goto` attempt, or the full duration of a sleep. -/
def eventMaxDelayMs : Event → Nat
  | Event.gotoCall _ t => t
  | Event.sleep s => s * 1000
  | _ => 0

/-- Worst-case total delay of a trace, in milliseconds. -/
def traceMaxDelayMs (tr : List Event) : Nat :=
  (tr.map eventMaxDelayMs).sum

/-- An environment in which every external call succeeds and the TOC is
reported visible. -/
def envOk : Env where
  gotoErr := fun _ => none
  clickErr := fun _ => none
  screenshotErr := fun _ => none
  tocVisible := true

/-- Like `envOk` but the visibility query answers `false`. -/
def envOkHidden : Env := { envOk with tocVisible := false }

/-- An environment in which every navigation attempt raises (server never
reachable) and everything else succeeds. -/
def envAllFail : Env :=
  { envOk with gotoErr := fun _ => some ("net::ERR_CONNECTION_REFUSED") }

/-- Like `envOk` but the "Xem trước" button cannot be located, so clicking it
raises a timeout. -/
def envNoButton : Env :=
  { envOk with
    clickErr := fun lbl =>
      if lbl = xemTruoc then some ("TimeoutError: waiting for get_by_role")
      else none }

/-! Helper lemmas about the retry loop. -/

lemma retryLoop_mem (env : Env) :
    ∀ (n i : Nat), ∀ e ∈ retryLoop env i n,
      e = Event.gotoCall appUrl 3000 ∨ e = Event.sleep 1 := by
  intro n
  induction n with
  | zero =>
    intro i e he
    simp [retryLoop] at he
  | succ n ih =>
    intro i e he
    simp only [retryLoop] at he
    cases hg : env.gotoErr i with
    | none =>
      rw [hg] at he
      simp only [List.mem_cons, List.not_mem_nil, or_false] at he
      exact Or.inl he
    | some msg =>
      rw [hg] at he
      simp only [List.mem_cons] at he
      rcases he with rfl | rfl | he
      · exact Or.inl rfl
      · exact Or.inr rfl
      · exact ih (i + 1) e he

lemma gotoCount_retryLoop_le (env : Env) :
    ∀ (n i : Nat), gotoCount (retryLoop env i n) ≤ n := by
  intro n
  induction n with
  | zero =>
    intro i
    simp [retryLoop, gotoCount]
  | succ n ih =>
    intro i
    simp only [retryLoop, gotoCount]
    cases hg : env.gotoErr i with
    | none =>
      simp [List.countP_cons, isGotoEvent]
    | some msg =>
      have hrec := ih (i + 1)
      simp only [gotoCount] at hrec
      simp [List.countP_cons, isGotoEvent]
      omega

lemma retryLoop_allFail (env : Env) :
    ∀ (n i : Nat), (∀ j, j < n → (env.gotoErr (i + j)).isSome = true) →
      retryLoop env i n = failedAttempts n := by
  intro n
  induction n with
  | zero =>
    intro i h
    simp [retryLoop, failedAttempts]
  | succ n ih =>
    intro i h
    have h0 : (env.gotoErr i).isSome = true := by
      have := h 0 (Nat.succ_pos n)
      simpa using this
    cases hg : env.gotoErr i with
    | none => rw [hg] at h0; simp at h0
    | some msg =>
      have hrest : ∀ j, j < n → (env.gotoErr (i + 1 + j)).isSome = true := by
        intro j hj
        have hstep := h (j + 1) (Nat.succ_lt_succ hj)
        have heq : i + (j + 1) = i + 1 + j := by omega
        rw [heq] at hstep
        exact hstep
      simp only [retryLoop, hg, failedAttempts]
      rw [ih (i + 1) hrest]

lemma firstSuccessAux_ge (env : Env) :
    ∀ (n i k : Nat), firstSuccessAux env i n = some k → i ≤ k := by
  intro n
  induction n with
  | zero =>
    intro i k h
    simp [firstSuccessAux] at h
  | succ n ih =>
    intro i k h
    simp only [firstSuccessAux] at h
    cases hg : env.gotoErr i with
    | none =>
      rw [hg] at h
      simp only [Option.some.injEq] at h
      omega
    | some msg =>
      rw [hg] at h
      have := ih (i + 1) k h
      omega

lemma retryLoop_eq_description (env : Env) :
    ∀ (n i : Nat),
      retryLoop env i n =
        (match firstSuccessAux env i n with
         | some k => failedAttempts (k - i) ++ [Event.gotoCall appUrl 3000]
         | none => failedAttempts n) := by
  intro n
  induction n with
  | zero =>
    intro i
    simp [retryLoop, firstSuccessAux, failedAttempts]
  | succ n ih =>
    intro i
    cases hg : env.gotoErr i with
    | none =>
      simp [retryLoop, firstSuccessAux, hg, failedAttempts]
    | some msg =>
      simp only [retryLoop, firstSuccessAux, hg]
      rw [ih (i + 1)]
      cases hf : firstSuccessAux env (i + 1) n with
      | none => simp [failedAttempts]
      | some k =>
        have hik : i + 1 ≤ k := firstSuccessAux_ge env n (i + 1) k hf
        have hki : k - i = (k - (i + 1)) + 1 := by omega
        simp [hki, failedAttempts]

lemma retryLoop_all_attemptOrPause (env : Env) (n i : Nat) :
    (retryLoop env i n).all attemptOrPause = true := by
  rw [List.all_eq_true]
  intro e he
  rcases retryLoop_mem env n i e he with rfl | rfl
  · simp [attemptOrPause]
  · simp [attemptOrPause]

lemma retryLoop_congr (e1 e2 : Env) (hg : e1.gotoErr = e2.gotoErr) :
    ∀ (n i : Nat), retryLoop e1 i n = retryLoop e2 i n := by
  intro n
  induction n with
  | zero => intro i; rfl
  | succ n ih =>
    intro i
    simp only [retryLoop, hg]
    cases e2.gotoErr i <;> simp [ih]

/-! Helper lemmas about trace observations. -/

lemma printedLines_append : ∀ (a b : List Event),
    printedLines (a ++ b) = printedLines a ++ printedLines b := by
  intro a b
  induction a with
  | nil => simp [printedLines]
  | cons e es ih => cases e <;> simp [printedLines, ih]

lemma screenshotPaths_append : ∀ (a b : List Event),
    screenshotPaths (a ++ b) = screenshotPaths a ++ screenshotPaths b := by
  intro a b
  induction a with
  | nil => simp [screenshotPaths]
  | cons e es ih => cases e <;> simp [screenshotPaths, ih]

lemma nonPrintEvents_append (a b : List Event) :
    nonPrintEvents (a ++ b) = nonPrintEvents a ++ nonPrintEvents b := by
  simp [nonPrintEvents, List.filter_append]

lemma printedLines_retryLoop (env : Env) :
    ∀ (n i : Nat), printedLines (retryLoop env i n) = [] := by
  intro n
  induction n with
  | zero => intro i; simp [retryLoop, printedLines]
  | succ n ih =>
    intro i
    cases hg : env.gotoErr i <;> simp [retryLoop, hg, printedLines, ih]

lemma screenshotPaths_retryLoop (env : Env) :
    ∀ (n i : Nat), screenshotPaths (retryLoop env i n) = [] := by
  intro n
  induction n with
  | zero => intro i; simp [retryLoop, screenshotPaths]
  | succ n ih =>
    intro i
    cases hg : env.gotoErr i <;> simp [retryLoop, hg, screenshotPaths, ih]

/-! Helper lemmas about the straight-line body after the loop. -/

lemma printedLines_afterLoop (env : Env)
    (h1 : env.screenshotErr initialSplitPath = none)
    (h2 : env.clickErr xemTruoc = none) :
    printedLines (afterLoop env).1 =
      [if env.tocVisible then tocVisibleLine else tocNotVisibleLine] := by
  simp only [afterLoop, h1, h2]
  cases env.screenshotErr previewWithTocPath <;>
    cases env.clickErr songSong <;>
      cases env.screenshotErr backToSplitPath <;>
        simp [printedLines, printedLines_append]

lemma afterLoop_fault (env : Env)
    (h1 : env.screenshotErr initialSplitPath = none)
    (h2 : env.clickErr xemTruoc = none) :
    (afterLoop env).2 =
      ((env.screenshotErr previewWithTocPath).isSome ||
       ((env.clickErr songSong).isSome ||
        (env.screenshotErr backToSplitPath).isSome)) := by
  simp only [afterLoop, h1, h2]
  cases env.screenshotErr previewWithTocPath <;>
    cases env.clickErr songSong <;>
      cases env.screenshotErr backToSplitPath <;> simp

lemma afterLoop_mem_initial (env : Env) :
    Event.screenshot initialSplitPath ∈ (afterLoop env).1 := by
  unfold afterLoop
  cases env.screenshotErr initialSplitPath with
  | some msg => simp
  | none =>
    cases env.clickErr xemTruoc with
    | some msg => simp
    | none =>
      cases env.screenshotErr previewWithTocPath with
      | some msg => simp
      | none =>
        cases env.clickErr songSong with
        | some msg => simp
        | none =>
          cases env.screenshotErr backToSplitPath with
          | some msg => simp
          | none => simp

lemma browserClose_not_mem_afterLoop (env : Env)
    (hf : (afterLoop env).2 = true) :
    Event.browserClose ∉ (afterLoop env).1 := by
  unfold afterLoop at hf ⊢
  cases h1 : env.screenshotErr initialSplitPath <;>
    cases h2 : env.clickErr xemTruoc <;>
      cases h3 : env.screenshotErr previewWithTocPath <;>
        cases h4 : env.clickErr songSong <;>
          cases h5 : env.screenshotErr backToSplitPath <;>
            simp_all

lemma afterLoop_noninterference (e1 e2 : Env)
    (hc : e1.clickErr = e2.clickErr)
    (hs : e1.screenshotErr = e2.screenshotErr) :
    nonPrintEvents (afterLoop e1).1 = nonPrintEvents (afterLoop e2).1 ∧
    (afterLoop e1).2 = (afterLoop e2).2 := by
  unfold afterLoop
  rw [hc, hs]
  cases h1 : e2.screenshotErr initialSplitPath <;>
    cases h2 : e2.clickErr xemTruoc <;>
      cases h3 : e2.screenshotErr previewWithTocPath <;>
        cases h4 : e2.clickErr songSong <;>
          cases h5 : e2.screenshotErr backToSplitPath <;>
            simp [nonPrintEvents, isPrintEvent]

lemma printedLines_run (env : Env)
    (h1 : env.screenshotErr initialSplitPath = none)
    (h2 : env.clickErr xemTruoc = none) :
    printedLines (verify_toc env).1 =
      [if env.tocVisible then tocVisibleLine else tocNotVisibleLine] := by
  have hsetup : printedLines setupTrace = [] := rfl
  have hstop : printedLines [Event.playwrightStop] = [] := rfl
  simp only [verify_toc, verifyBody, printedLines_append, hsetup,
    printedLines_retryLoop, printedLines_afterLoop env h1 h2, hstop]
  simp

/-! Claim theorems. -/

/-- Claim C1: when the run reaches the visibility check (the initial
screenshot and the "Xem trước" click did not raise), the run prints exactly
`tocVisibleLine` if the "Mục lục" visibility query returns `true` and exactly
`tocNotVisibleLine` if it returns `false`; no other text is printed anywhere
in the run, and the decision itself never raises — any fault of the run comes
only from the three driver calls after the decision. -/
theorem visibility_print_exact (env : Env)
    (h1 : env.screenshotErr initialSplitPath = none)
    (h2 : env.clickErr xemTruoc = none) :
    printedLines (verify_toc env).1 =
      [if env.tocVisible then tocVisibleLine else tocNotVisibleLine] ∧
    (verify_toc env).2 =
      ((env.screenshotErr previewWithTocPath).isSome ||
       ((env.clickErr songSong).isSome ||
        (env.screenshotErr backToSplitPath).isSome)) := by
  constructor
  · exact printedLines_run env h1 h2
  · have hv : (verify_toc env).2 = (afterLoop env).2 := rfl
    rw [hv, afterLoop_fault env h1 h2]

/-- Witness for C1 at the concrete all-succeeding environment. -/
theorem visibility_print_exact_witness :
    printedLines (verify_toc envOk).1 =
      [if envOk.tocVisible then tocVisibleLine else tocNotVisibleLine] ∧
    (verify_toc envOk).2 =
      ((envOk.screenshotErr previewWithTocPath).isSome ||
       ((envOk.clickErr songSong).isSome ||
        (envOk.screenshotErr backToSplitPath).isSome)) :=
  visibility_print_exact envOk rfl rfl

/-- Claim C2: when every one of the 10 navigation attempts fails, the retry
loop contributes exactly the 10 failed attempts and no fault — the run's trace
continues with the whole post-loop body, it contains the first screenshot
capture, and the run's fault flag is exactly the post-loop body's. -/
theorem retry_exhaustion_proceeds (env : Env)
    (h : ∀ i, i < max_retries → (env.gotoErr i).isSome = true) :
    (verify_toc env).1 =
      setupTrace ++ failedAttempts max_retries ++ (afterLoop env).1 ++
        [Event.playwrightStop] ∧
    Event.screenshot initialSplitPath ∈ (verify_toc env).1 ∧
    (verify_toc env).2 = (afterLoop env).2 := by
  have hloop : retryLoop env 0 max_retries = failedAttempts max_retries :=
    retryLoop_allFail env max_retries 0 (by intro j hj; simpa using h j hj)
  refine ⟨?_, ?_, rfl⟩
  · simp [verify_toc, verifyBody, hloop]
  · simp [verify_toc, verifyBody, List.mem_append, afterLoop_mem_initial env]

/-- Witness for C2 at the environment where the server never comes up. -/
theorem retry_exhaustion_proceeds_witness :
    (verify_toc envAllFail).1 =
      setupTrace ++ failedAttempts max_retries ++ (afterLoop envAllFail).1 ++
        [Event.playwrightStop] ∧
    Event.screenshot initialSplitPath ∈ (verify_toc envAllFail).1 ∧
    (verify_toc envAllFail).2 = (afterLoop envAllFail).2 :=
  retry_exhaustion_proceeds envAllFail (by decide)

/-- Claim C3: the retry loop performs at most 10 navigation attempts, every
one of its events is either the fixed `goto` (URL `appUrl`, 3000 ms timeout)
or the 1-second pause, and its trace is exactly `loopTraceDescription`: the
failed attempts each followed by a 1-second pause and, if some attempt
succeeds, the final successful `goto` with nothing after it — the loop exits
immediately on the first success. -/
theorem retry_loop_shape (env : Env) :
    retryLoop env 0 max_retries = loopTraceDescription env ∧
    gotoCount (retryLoop env 0 max_retries) ≤ max_retries ∧
    (retryLoop env 0 max_retries).all attemptOrPause = true := by
  refine ⟨?_, gotoCount_retryLoop_le env max_retries 0,
    retryLoop_all_attemptOrPause env max_retries 0⟩
  have hd := retryLoop_eq_description env max_retries 0
  simpa [loopTraceDescription] using hd

/-- Witness for C3 at a concrete environment. -/
theorem retry_loop_shape_witness :
    retryLoop envOk 0 max_retries = loopTraceDescription envOk ∧
    gotoCount (retryLoop envOk 0 max_retries) ≤ max_retries ∧
    (retryLoop envOk 0 max_retries).all attemptOrPause = true :=
  retry_loop_shape envOk

/-- Claim C4: on every execution path — normal completion or a fault
propagating from any step — the browser session is released by the time the
run exits: the trace always contains the scoped-resource release. -/
theorem browser_session_released (env : Env) :
    sessionReleased (verify_toc env).1 := by
  right
  simp [verify_toc]

/-- Witness for C4 at a concrete environment. -/
theorem browser_session_released_witness :
    sessionReleased (verify_toc envOk).1 :=
  browser_session_released envOk

/-- Claim C5: if one of the two labeled buttons cannot be located (its click
raises) at a point the run reaches, the fault propagates unhandled: the run's
fault flag is set, the process exit status is non-zero, and `browser.close()`
is never reached. -/
theorem missing_button_faults (env : Env)
    (h1 : env.screenshotErr initialSplitPath = none)
    (h2 : env.screenshotErr previewWithTocPath = none)
    (hb : (env.clickErr xemTruoc).isSome = true ∨
          (env.clickErr songSong).isSome = true) :
    (verify_toc env).2 = true ∧ exitCode env ≠ 0 ∧
      Event.browserClose ∉ (verify_toc env).1 := by
  have hfault : (afterLoop env).2 = true := by
    cases hx : env.clickErr xemTruoc with
    | some msg => simp [afterLoop, h1, hx]
    | none =>
      rcases hb with hbx | hbs
      · rw [hx] at hbx; simp at hbx
      · obtain ⟨m, hm⟩ := Option.isSome_iff_exists.mp hbs
        simp [afterLoop, h1, hx, h2, hm]
  have hrun : (verify_toc env).2 = true := hfault
  have hset : Event.browserClose ∉ setupTrace := by decide
  have hloopmem : Event.browserClose ∉ retryLoop env 0 max_retries := by
    intro hm
    rcases retryLoop_mem env max_retries 0 _ hm with h | h <;> simp at h
  have hafter := browserClose_not_mem_afterLoop env hfault
  have hstop : Event.browserClose ∉ [Event.playwrightStop] := by decide
  refine ⟨hrun, ?_, ?_⟩
  · simp [exitCode, hrun]
  · simp [verify_toc, verifyBody, List.mem_append, hset, hloopmem, hafter,
      hstop]

/-- Witness for C5 at the environment where the "Xem trước" button is
missing. -/
theorem missing_button_faults_witness :
    (verify_toc envNoButton).2 = true ∧ exitCode envNoButton ≠ 0 ∧
      Event.browserClose ∉ (verify_toc envNoButton).1 :=
  missing_button_faults envNoButton rfl rfl (Or.inl (by decide))

/-- Claim C6 as stated is false: at the concrete environment where every
attempt fails, the sum of the per-attempt navigation timeouts and the
1-second pauses of the retry loop is 40000 ms, not 13000 ms (13 seconds). -/
theorem retry_delay_not_13s :
    traceMaxDelayMs (retryLoop envAllFail 0 max_retries) = 40000 ∧
    traceMaxDelayMs (retryLoop envAllFail 0 max_retries) ≠ 13000 := by
  decide

/-- Claim C6 amended: the worst-case total delay of the connect-retry loop
when every attempt fails — the sum of the ten 3-second navigation timeouts
and the ten 1-second pauses — is 40 seconds (40000 ms). -/
theorem retry_delay_worst_case_40s (env : Env)
    (h : ∀ i, i < max_retries → (env.gotoErr i).isSome = true) :
    traceMaxDelayMs (retryLoop env 0 max_retries) = 40000 := by
  rw [retryLoop_allFail env max_retries 0 (by intro j hj; simpa using h j hj)]
  decide

/-- Witness for the amended C6 at the concrete all-failing environment. -/
theorem retry_delay_worst_case_40s_witness :
    traceMaxDelayMs (retryLoop envAllFail 0 max_retries) = 40000 :=
  retry_delay_worst_case_40s envAllFail (by decide)

/-- Claim C7: a fault-free run captures exactly three screenshots, in order
`initialSplitPath` (before any click), `previewWithTocPath` (after the
"Xem trước" click and the visibility check), `backToSplitPath` (after the
"Song song" click), and writes no other file; the full trace shows the
ordering of every action. -/
theorem screenshots_exact_order (env : Env)
    (h1 : env.screenshotErr initialSplitPath = none)
    (h2 : env.screenshotErr previewWithTocPath = none)
    (h3 : env.screenshotErr backToSplitPath = none)
    (h4 : env.clickErr xemTruoc = none)
    (h5 : env.clickErr songSong = none) :
    screenshotPaths (verify_toc env).1 =
      [initialSplitPath, previewWithTocPath, backToSplitPath] ∧
    (verify_toc env).1 =
      setupTrace ++ retryLoop env 0 max_retries ++
        [Event.screenshot initialSplitPath,
         Event.click buttonRole xemTruoc,
         Event.sleep 1,
         Event.queryVisible mucLuc,
         Event.printLine (if env.tocVisible then tocVisibleLine
                          else tocNotVisibleLine),
         Event.screenshot previewWithTocPath,
         Event.click buttonRole songSong,
         Event.sleep 1,
         Event.screenshot backToSplitPath,
         Event.browserClose,
         Event.playwrightStop] ∧
    (verify_toc env).2 = false := by
  have hafter : afterLoop env =
      ([Event.screenshot initialSplitPath,
        Event.click buttonRole xemTruoc,
        Event.sleep 1,
        Event.queryVisible mucLuc,
        Event.printLine (if env.tocVisible then tocVisibleLine
                         else tocNotVisibleLine),
        Event.screenshot previewWithTocPath,
        Event.click buttonRole songSong,
        Event.sleep 1,
        Event.screenshot backToSplitPath,
        Event.browserClose], false) := by
    simp [afterLoop, h1, h2, h3, h4, h5]
  refine ⟨?_, ?_, ?_⟩
  · have hsetup : screenshotPaths setupTrace = [] := rfl
    simp only [verify_toc, verifyBody, hafter, screenshotPaths_append,
      screenshotPaths_retryLoop, hsetup]
    simp [screenshotPaths]
  · simp [verify_toc, verifyBody, hafter]
  · simp [verify_toc, verifyBody, hafter]

/-- Witness for C7 at the concrete all-succeeding environment. -/
theorem screenshots_exact_order_witness :
    screenshotPaths (verify_toc envOk).1 =
      [initialSplitPath, previewWithTocPath, backToSplitPath] ∧
    (verify_toc envOk).1 =
      setupTrace ++ retryLoop envOk 0 max_retries ++
        [Event.screenshot initialSplitPath,
         Event.click buttonRole xemTruoc,
         Event.sleep 1,
         Event.queryVisible mucLuc,
         Event.printLine (if envOk.tocVisible then tocVisibleLine
                          else tocNotVisibleLine),
         Event.screenshot previewWithTocPath,
         Event.click buttonRole songSong,
         Event.sleep 1,
         Event.screenshot backToSplitPath,
         Event.browserClose,
         Event.playwrightStop] ∧
    (verify_toc envOk).2 = false :=
  screenshots_exact_order envOk rfl rfl rfl rfl rfl

/-- Claim C8 as stated is false: a concrete fault-free run (every driver call
succeeds) prints exactly one line of diagnostic text, not two. -/
theorem single_print_not_two :
    (verify_toc envOk).2 = false ∧
    printedLines (verify_toc envOk).1 = [tocVisibleLine] ∧
    (printedLines (verify_toc envOk).1).length ≠ 2 := by
  decide

/-- Claim C8 amended: a fault-free run emits exactly one line of diagnostic
text on standard output. -/
theorem one_diagnostic_line (env : Env)
    (h1 : env.screenshotErr initialSplitPath = none)
    (h2 : env.clickErr xemTruoc = none)
    (h3 : env.screenshotErr previewWithTocPath = none)
    (h4 : env.clickErr songSong = none)
    (h5 : env.screenshotErr backToSplitPath = none) :
    (printedLines (verify_toc env).1).length = 1 ∧
    (verify_toc env).2 = false := by
  constructor
  · rw [printedLines_run env h1 h2]
    cases env.tocVisible <;> rfl
  · show (afterLoop env).2 = false
    rw [afterLoop_fault env h1 h2, h3, h4, h5]
    rfl

/-- Witness for the amended C8 at the environment whose visibility query
answers `false`. -/
theorem one_diagnostic_line_witness :
    (printedLines (verify_toc envOkHidden).1).length = 1 ∧
    (verify_toc envOkHidden).2 = false :=
  one_diagnostic_line envOkHidden rfl rfl rfl rfl rfl

/-- Claim C9: whatever the exceptions raised by the navigation attempts, the
bare `except:` swallows them all; when all 10 attempts fail the loop performs
exactly 10 `goto` calls and exactly 10 one-second sleeps, and the last event
is the trailing sleep after the final failed attempt. -/
theorem retry_all_fail_trace (env : Env)
    (h : ∀ i, i < max_retries → (env.gotoErr i).isSome = true) :
    retryLoop env 0 max_retries = failedAttempts max_retries ∧
    gotoCount (retryLoop env 0 max_retries) = max_retries ∧
    sleepCount (retryLoop env 0 max_retries) = max_retries ∧
    (retryLoop env 0 max_retries).getLast? = some (Event.sleep 1) := by
  have hloop : retryLoop env 0 max_retries = failedAttempts max_retries :=
    retryLoop_allFail env max_retries 0 (by intro j hj; simpa using h j hj)
  refine ⟨hloop, ?_, ?_, ?_⟩ <;> rw [hloop] <;> decide

/-- Witness for C9 at the concrete all-failing environment. -/
theorem retry_all_fail_trace_witness :
    retryLoop envAllFail 0 max_retries = failedAttempts max_retries ∧
    gotoCount (retryLoop envAllFail 0 max_retries) = max_retries ∧
    sleepCount (retryLoop envAllFail 0 max_retries) = max_retries ∧
    (retryLoop envAllFail 0 max_retries).getLast? = some (Event.sleep 1) :=
  retry_all_fail_trace envAllFail (by decide)

/-- Claim C10: the result of the "Mục lục" visibility query influences only
the printed line: two runs whose environments agree on every external
behaviour except possibly the visibility boolean perform the same sequence of
non-print actions and have the same fault outcome. -/
theorem visibility_noninterference (e1 e2 : Env)
    (hg : e1.gotoErr = e2.gotoErr)
    (hc : e1.clickErr = e2.clickErr)
    (hs : e1.screenshotErr = e2.screenshotErr) :
    nonPrintEvents (verify_toc e1).1 = nonPrintEvents (verify_toc e2).1 ∧
    (verify_toc e1).2 = (verify_toc e2).2 := by
  obtain ⟨ha, hf⟩ := afterLoop_noninterference e1 e2 hc hs
  constructor
  · simp only [verify_toc, verifyBody, nonPrintEvents_append,
      retryLoop_congr e1 e2 hg max_retries 0, ha]
  · simpa [verify_toc, verifyBody] using hf

/-- Witness for C10: the two concrete environments differing only in the
visibility answer. -/
theorem visibility_noninterference_witness :
    nonPrintEvents (verify_toc envOk).1 =
      nonPrintEvents (verify_toc envOkHidden).1 ∧
    (verify_toc envOk).2 = (verify_toc envOkHidden).2 :=
  visibility_noninterference envOk envOkHidden rfl rfl rfl
